import Mathlib

/-!
Verification development for the tinyfoot collaborative sketch application.

The embedding follows the source store module (the Automerge-backed sketch
store): the document model, the local mutation operations, the
merge-on-receive handler, the close/reconnect handler of the transport, and
the cursor-liveness filter of the presence component.

Numeric values (coordinates, widths, timestamps in milliseconds) are modelled
as integers: the store performs no arithmetic on them beyond the liveness
subtraction and comparison, which are exact on the integer inputs used here.
-/

namespace Tinyfoot

/-- A stroke point, source type Point = [number, number]. -/
abbrev Point := Int × Int

/-- A 2D position record with x and y fields. -/
structure Pos where
  x : Int
  y : Int
deriving DecidableEq

/-- Canvas element, the tagged union of StrokeElement and NoteElement.
Field order matches the source records: stroke has id, points, color, width,
creator, timestamp; note has id, text, position, color, creator, timestamp. -/
inductive CanvasElement
  | stroke (id : String) (points : List Point) (color : String) (width : Int)
      (creator : String) (timestamp : Int)
  | note (id : String) (text : String) (position : Pos) (color : String)
      (creator : String) (timestamp : Int)
deriving DecidableEq

/-- Per-actor cursor record: position and lastActive wall-clock time. -/
structure Cursor where
  position : Pos
  lastActive : Int
deriving DecidableEq

/-- The canvas substructure: elements collection, cursors mapping (an
association list keyed by user id, as a JS object keeps one entry per key),
and title. -/
structure Canvas where
  elements : List CanvasElement
  cursors : List (String × Cursor)
  title : String
deriving DecidableEq

/-- The replicated document; canvas may be absent at runtime (the source
checks doc.canvas before every operation). -/
structure SketchDoc where
  canvas : Option Canvas
deriving DecidableEq

/-- The default empty canvas injected on creation and repair. -/
def emptyCanvas : Canvas :=
  { elements := [], cursors := [], title := "Untitled Sketch" }

/-- The source emptyDoc: a document with the default canvas present. -/
def emptyDoc : SketchDoc := { canvas := some emptyCanvas }

/-- Identifier and type tag of an element; both are write-once in the store
(no operation ever reassigns them). -/
def elemKey : CanvasElement → String × String
  | .stroke id _ _ _ _ _ => (id, "stroke")
  | .note id _ _ _ _ _ => (id, "note")

/-- Whether an element is a note carrying the given id, the condition of the
find in updateNote: el.id === id and el.type === 'note'. -/
def isNoteWithId (id : String) : CanvasElement → Bool
  | .note nid _ _ _ _ _ => nid = id
  | .stroke _ _ _ _ _ _ => false

/-- Set the text and timestamp of the first note with the given id, exactly
as updateNote's find-then-assign does; leaves the list unchanged when no
element matches. -/
def setNoteTextElems (id text : String) (now : Int) :
    List CanvasElement → List CanvasElement
  | [] => []
  | CanvasElement.note nid ntext pos color creator ts :: rest =>
      if nid = id then CanvasElement.note nid text pos color creator now :: rest
      else CanvasElement.note nid ntext pos color creator ts ::
        setNoteTextElems id text now rest
  | el :: rest => el :: setNoteTextElems id text now rest

/-- Text of the first note with the given id, if any. -/
def noteTextLookup (id : String) : List CanvasElement → Option String
  | [] => none
  | CanvasElement.note nid ntext _ _ _ _ :: rest =>
      if nid = id then some ntext else noteTextLookup id rest
  | _ :: rest => noteTextLookup id rest

/-- Whether some element is a note with the given id. -/
def noteHasId (id : String) (els : List CanvasElement) : Bool :=
  els.any (isNoteWithId id)

/-- JS object assignment obj[k] = v on an association list: replaces the
value in place when the key exists, appends otherwise. -/
def upsertCursor (k : String) (v : Cursor) :
    List (String × Cursor) → List (String × Cursor)
  | [] => [(k, v)]
  | (k', v') :: rest =>
      if k' = k then (k, v) :: rest else (k', v') :: upsertCursor k v rest

/-- Value stored under a key in the cursors mapping. -/
def lookupCursor (k : String) : List (String × Cursor) → Option Cursor
  | [] => none
  | (k', v) :: rest => if k' = k then some v else lookupCursor k rest

/-! ### Mutation operations of the store

Each operation in the source has the shape: an entry guard
if (!doc || !doc.canvas) return; then setDoc applying an Automerge.change
callback, then a send of the new document when the socket is open. The
change callbacks are modelled as pure document functions, the operations as
functions returning the new store state together with the list of documents
sent on the network. -/

/-- Change callback of addStroke: repair an absent canvas with the default
empty one, then push a stroke with the generated id, current actor and
timestamp. -/
def addStrokeChange (newId actor : String) (now : Int) (points : List Point)
    (color : String) (width : Int) (d : SketchDoc) : SketchDoc :=
  let c := d.canvas.getD emptyCanvas
  ⟨some { c with elements := c.elements ++
      [CanvasElement.stroke newId points color width actor now] }⟩

/-- Change callback of addNote: repair an absent canvas, then push a note. -/
def addNoteChange (newId actor : String) (now : Int) (text : String)
    (pos : Pos) (color : String) (d : SketchDoc) : SketchDoc :=
  let c := d.canvas.getD emptyCanvas
  ⟨some { c with elements := c.elements ++
      [CanvasElement.note newId text pos color actor now] }⟩

/-- Change callback of updateNote: returns unchanged when the canvas is
absent (no repair in this callback), otherwise sets text and timestamp of
the first note with the given id. -/
def updateNoteChange (id text : String) (now : Int) (d : SketchDoc) :
    SketchDoc :=
  match d.canvas with
  | none => d
  | some c => ⟨some { c with elements := setNoteTextElems id text now c.elements }⟩

/-- Change callback of updateTitle: when the canvas is absent it is created
with empty elements and cursors and the new title, otherwise the title field
is assigned. -/
def updateTitleChange (title : String) (d : SketchDoc) : SketchDoc :=
  match d.canvas with
  | none => ⟨some { elements := [], cursors := [], title := title }⟩
  | some c => ⟨some { c with title := title }⟩

/-- Change callback of updateCursor: repair an absent canvas, then assign
the caller's cursor entry with lastActive = now. -/
def updateCursorChange (actor : String) (x y now : Int) (d : SketchDoc) :
    SketchDoc :=
  let c := d.canvas.getD emptyCanvas
  ⟨some { c with cursors := upsertCursor actor ⟨⟨x, y⟩, now⟩ c.cursors }⟩

/-- The entry guard of every mutation: false when the store document is
absent or lacks its canvas. -/
def guardOk : Option SketchDoc → Bool
  | none => false
  | some d => d.canvas.isSome

/-- Common shape of the five mutation operations: guard, apply the change to
the current document, send the new document when the socket is open. When
the guard fails the state is returned untouched and nothing is sent. -/
def runMutation (s : Option SketchDoc) (wsOpen : Bool)
    (change : SketchDoc → SketchDoc) : Option SketchDoc × List SketchDoc :=
  match s with
  | none => (none, [])
  | some d =>
      if d.canvas.isSome then
        let nd := change d
        (some nd, if wsOpen then [nd] else [])
      else (some d, [])

/-- The addStroke operation of the store. -/
def addStroke (s : Option SketchDoc) (wsOpen : Bool) (newId actor : String)
    (now : Int) (points : List Point) (color : String) (width : Int) :
    Option SketchDoc × List SketchDoc :=
  runMutation s wsOpen (addStrokeChange newId actor now points color width)

/-- The addNote operation of the store. -/
def addNote (s : Option SketchDoc) (wsOpen : Bool) (newId actor : String)
    (now : Int) (text : String) (pos : Pos) (color : String) :
    Option SketchDoc × List SketchDoc :=
  runMutation s wsOpen (addNoteChange newId actor now text pos color)

/-- The updateNote operation of the store. -/
def updateNote (s : Option SketchDoc) (wsOpen : Bool) (id text : String)
    (now : Int) : Option SketchDoc × List SketchDoc :=
  runMutation s wsOpen (updateNoteChange id text now)

/-- The updateTitle operation of the store. -/
def updateTitle (s : Option SketchDoc) (wsOpen : Bool) (title : String) :
    Option SketchDoc × List SketchDoc :=
  runMutation s wsOpen (updateTitleChange title)

/-- The updateCursor operation of the store. -/
def updateCursor (s : Option SketchDoc) (wsOpen : Bool) (actor : String)
    (x y now : Int) : Option SketchDoc × List SketchDoc :=
  runMutation s wsOpen (updateCursorChange actor x y now)

/-- Element id and tag pairs of a store state, empty when the document or
its canvas is absent. -/
def docKeys : Option SketchDoc → List (String × String)
  | some ⟨some c⟩ => c.elements.map elemKey
  | _ => []

/-! ### Presence: the live-cursor filter of the UserCursors component. -/

/-- The fixed liveness window in milliseconds. -/
def livenessWindowMs : Int := 10000

/-- The live-cursor set: entries of other users whose lastActive is within
the liveness window of now, exactly the two filters of the component. -/
def activeCursors (cursors : List (String × Cursor)) (currentUserId : String)
    (now : Int) : List (String × Cursor) :=
  (cursors.filter (fun p => p.1 != currentUserId)).filter
    (fun p => decide (now - p.2.lastActive < livenessWindowMs))

/-! ### Transport: the close handler of the sync WebSocket. -/

/-- A close event of the connection: protocol code and reason. -/
structure CloseEvent where
  code : Nat
  reason : String

/-- The clean-close protocol code tested by the handler. -/
def cleanCloseCode : Nat := 1000

/-- The fixed reconnect delay in milliseconds. -/
def reconnectDelayMs : Nat := 5000

/-- The onclose handler: sets connected to false, and schedules one
reconnection attempt after the fixed delay exactly when the close code is
not the clean code. The result is the new connected flag and the list of
scheduled reconnect delays. -/
def wsOnClose (e : CloseEvent) : Bool × List Nat :=
  (false, if e.code = cleanCloseCode then [] else [reconnectDelayMs])

/-! ### The replicated merge

The merge itself is performed by the Automerge library, whose source is not
part of this repository; only its callers (the onmessage handler) are. The
merge semantics below are therefore modelled from the spec. -/

/-- Modelled from the spec: the payload of one operation of the causal
history — canvas creation (which assigns the default title), element
insertion, per-field note-text assignment, title assignment, cursor
assignment. The Automerge operation log is not in the source tree. -/
inductive OpPayload
  | initCanvas
  | addElement (el : CanvasElement)
  | setNoteText (id : String) (text : String) (ts : Int)
  | setTitle (title : String)
  | setCursor (user : String) (cur : Cursor)
deriving DecidableEq

/-- Modelled from the spec: an operation tagged with its originating actor
and per-actor monotonically increasing counter. -/
structure MOp where
  actor : String
  counter : Nat
  payload : OpPayload
deriving DecidableEq

/-- Modelled from the spec: a replica state is its operation history, and
merge is the union of the operation histories of the two documents. -/
def mergeOps (d x : Finset MOp) : Finset MOp := d ∪ x

/-- Merging a list of remote snapshots into a replica, in order. -/
def mergeAll (d : Finset MOp) (l : List (Finset MOp)) : Finset MOp :=
  l.foldl mergeOps d

/-- Last-writer-wins key order of the spec: concurrent writes to the same
scalar field resolve deterministically by comparing (actor id, counter)
pairs, higher pair wins — actor ids compared lexicographically by their
characters. -/
def keyLe (a b : String × Nat) : Prop :=
  a.1.data < b.1.data ∨ (a.1 = b.1 ∧ a.2 ≤ b.2)

instance : DecidableRel keyLe := fun a b =>
  inferInstanceAs (Decidable (a.1.data < b.1.data ∨ (a.1 = b.1 ∧ a.2 ≤ b.2)))

/-- Whether an operation writes the title field (canvas creation assigns
the default title). -/
def isTitleOp : MOp → Bool := fun o =>
  match o.payload with
  | .setTitle _ => true
  | .initCanvas => true
  | _ => false

/-- The (actor, counter) key and written title of a title-writing op. -/
def titleVal : MOp → (String × Nat) × String := fun o =>
  match o.payload with
  | .setTitle t => ((o.actor, o.counter), t)
  | _ => ((o.actor, o.counter), "Untitled Sketch")

/-- All title writes present in a history, with their keys. -/
def titleCands (s : Finset MOp) : Finset ((String × Nat) × String) :=
  (s.filter (fun o => isTitleOp o = true)).image titleVal

/-- The winning title writes: those whose key is maximal under the
(actor id, counter) order. -/
def maxByKey (c : Finset ((String × Nat) × String)) :
    Finset ((String × Nat) × String) :=
  c.filter (fun t => ∀ t' ∈ c, keyLe t'.1 t.1)

/-- Whether an operation writes a note's text field. -/
def isNoteOp : MOp → Bool := fun o =>
  match o.payload with
  | .setNoteText _ _ _ => true
  | _ => false

/-- Whether an operation writes a cursor entry. -/
def isCursorOp : MOp → Bool := fun o =>
  match o.payload with
  | .setCursor _ _ => true
  | _ => false

/-- Whether an operation inserts an element. -/
def isElementOp : MOp → Bool := fun o =>
  match o.payload with
  | .addElement _ => true
  | _ => false

/-- All note-text writes in a history: (note id, key, text). -/
def noteCands (s : Finset MOp) : Finset (String × (String × Nat) × String) :=
  (s.filter (fun o => isNoteOp o = true)).image
    (fun o => match o.payload with
      | .setNoteText id t _ => (id, (o.actor, o.counter), t)
      | _ => ("", (o.actor, o.counter), ""))

/-- The winning note-text writes, maximal per note id. -/
def maxNoteCands (c : Finset (String × (String × Nat) × String)) :
    Finset (String × (String × Nat) × String) :=
  c.filter (fun t => ∀ t' ∈ c, t'.1 = t.1 → keyLe t'.2.1 t.2.1)

/-- All cursor writes in a history: (user id, key, cursor). -/
def cursorCands (s : Finset MOp) : Finset (String × (String × Nat) × Cursor) :=
  (s.filter (fun o => isCursorOp o = true)).image
    (fun o => match o.payload with
      | .setCursor u cur => (u, (o.actor, o.counter), cur)
      | _ => ("", (o.actor, o.counter), ⟨⟨0, 0⟩, 0⟩))

/-- The winning cursor writes, maximal per user id. -/
def maxCursorCands (c : Finset (String × (String × Nat) × Cursor)) :
    Finset (String × (String × Nat) × Cursor) :=
  c.filter (fun t => ∀ t' ∈ c, t'.1 = t.1 → keyLe t'.2.1 t.2.1)

/-- The element insertions of a history; concurrent inserts never conflict
and are all kept, ordered by the same deterministic key order, so the set
of insertion operations determines the elements collection. -/
def elementOps (s : Finset MOp) : Finset MOp :=
  s.filter (fun o => isElementOp o = true)

/-- Modelled from the spec: the document value seen by readers, a
deterministic function of the operation history — the winning title write,
the winning text write per note, the winning cursor write per user, and the
set of element insertions. -/
structure DocView where
  titleView : Finset ((String × Nat) × String)
  noteView : Finset (String × (String × Nat) × String)
  cursorView : Finset (String × (String × Nat) × Cursor)
  elementsView : Finset MOp
deriving DecidableEq

/-- The replayed document of a replica history. -/
def replicaDoc (s : Finset MOp) : DocView :=
  ⟨maxByKey (titleCands s), maxNoteCands (noteCands s),
    maxCursorCands (cursorCands s), elementOps s⟩

/-- Whether a loaded snapshot has the canvas substructure: some operation of
its history created the canvas. -/
def hasCanvasOps (s : Finset MOp) : Bool :=
  decide (s.filter (fun o => o.payload = OpPayload.initCanvas)).Nonempty

/-- The repair applied to a received snapshot lacking its canvas: one fresh
change (by the repairing actor, at its next counter) creating the default
canvas, as the onmessage handler does before merging. -/
def fixDoc (s : Finset MOp) (fixActor : String) (fixCounter : Nat) :
    Finset MOp :=
  insert ⟨fixActor, fixCounter, OpPayload.initCanvas⟩ s

/-- The merge the onmessage handler computes (and logs) before returning:
a snapshot without canvas is repaired and then merged, a well-formed
snapshot is merged directly. -/
def mergeComputed (current x : Finset MOp) (fixActor : String)
    (fixCounter : Nat) : Finset MOp :=
  if hasCanvasOps x then mergeOps current x
  else mergeOps current (fixDoc x fixActor fixCounter)

/-- Reading property 0 of a merged document, the mergeResult[0] of the
handler: Automerge.merge returns the merged document itself, not a tuple
(the source needs an unchecked double cast to pretend otherwise), and a
map-shaped document has no property named 0, so the read yields undefined,
modelled as none. -/
def docIndexZero (_d : Finset MOp) : Option (Finset MOp) := none

/-- The merge-on-receive updater of the onmessage handler, returning the
store's new document: a payload that failed to deserialize (none — the
load threw and the catch returned the current document) leaves the state
unchanged; for any payload that loads, the handler computes the merge
(repairing a canvas-less snapshot first) but then returns mergeResult[0],
which is undefined — the store's document is wiped. -/
def mergeIncoming (current : Finset MOp) (payload : Option (Finset MOp))
    (fixActor : String) (fixCounter : Nat) : Option (Finset MOp) :=
  match payload with
  | none => some current
  | some x => docIndexZero (mergeComputed current x fixActor fixCounter)

/-! ### Concrete instances used by the closed statements below. -/

/-- A concrete canvas with one note and one foreign cursor. -/
def cvW : Canvas :=
  { elements := [CanvasElement.note "n1" "hi" ⟨1, 2⟩ "#ffff88" "u2" 10],
    cursors := [("u2", ⟨⟨5, 6⟩, 50⟩)],
    title := "Board" }

/-- A concrete document wrapping cvW. -/
def dW : SketchDoc := ⟨some cvW⟩

/-- A document whose canvas substructure is absent. -/
def dNoCanvas : SketchDoc := ⟨none⟩

/-- A concrete history: canvas created and title set to Hello by actor a. -/
def hD : Finset MOp :=
  {⟨"a", 1, OpPayload.initCanvas⟩, ⟨"a", 2, OpPayload.setTitle "Hello"⟩}

/-- A concrete remote snapshot: one stroke inserted by actor b. -/
def hX : Finset MOp :=
  {⟨"b", 1, OpPayload.addElement
      (CanvasElement.stroke "s1" [(0, 0)] "#000000" 3 "b" 5)⟩}

/-- A concrete remote snapshot: one note text set by actor c. -/
def hY : Finset MOp := {⟨"c", 1, OpPayload.setNoteText "n1" "yo" 7⟩}

/-! ### Helper lemmas. -/

/-- Membership in a fold of merges: an operation is present after merging a
list of snapshots exactly when it was present initially or in some merged
snapshot. -/
theorem mem_mergeAll (x : MOp) (d : Finset MOp) (l : List (Finset MOp)) :
    x ∈ mergeAll d l ↔ x ∈ d ∨ ∃ s, s ∈ l ∧ x ∈ s := by
  induction l generalizing d with
  | nil => simp [mergeAll]
  | cons s l ih =>
    have hstep : mergeAll d (s :: l) = mergeAll (mergeOps d s) l := rfl
    rw [hstep, ih]
    simp only [mergeOps, Finset.mem_union, List.mem_cons]
    constructor
    · rintro ((h | h) | ⟨t, ht, hx⟩)
      · exact Or.inl h
      · exact Or.inr ⟨s, Or.inl rfl, h⟩
      · exact Or.inr ⟨t, Or.inr ht, hx⟩
    · rintro (h | ⟨t, (rfl | ht), hx⟩)
      · exact Or.inl (Or.inl h)
      · exact Or.inl (Or.inr hx)
      · exact Or.inr ⟨t, ht, hx⟩

/-- Merging two snapshot lists with the same members yields the same
history. -/
theorem mergeAll_eq_of_same (d : Finset MOp) (l₁ l₂ : List (Finset MOp))
    (h₁ : ∀ s ∈ l₁, s ∈ l₂) (h₂ : ∀ s ∈ l₂, s ∈ l₁) :
    mergeAll d l₁ = mergeAll d l₂ := by
  apply Finset.ext
  intro x
  rw [mem_mergeAll, mem_mergeAll]
  constructor
  · rintro (h | ⟨s, hs, hx⟩)
    · exact Or.inl h
    · exact Or.inr ⟨s, h₁ s hs, hx⟩
  · rintro (h | ⟨s, hs, hx⟩)
    · exact Or.inl h
    · exact Or.inr ⟨s, h₂ s hs, hx⟩

/-- When no element is a note with the given id, the update leaves the
elements unchanged. -/
theorem setNoteTextElems_of_none (id text : String) (now : Int)
    (els : List CanvasElement)
    (h : ∀ el ∈ els, isNoteWithId id el = false) :
    setNoteTextElems id text now els = els := by
  induction els with
  | nil => rfl
  | cons el rest ih =>
    have hrest := ih fun x hx => h x (List.mem_cons_of_mem _ hx)
    cases el with
    | stroke a b c d e f => simp [setNoteTextElems, hrest]
    | note nid ntext pos color creator ts =>
      have hh := h _ (List.mem_cons_self _ _)
      simp only [isNoteWithId, decide_eq_false_iff_not] at hh
      simp [setNoteTextElems, hh, hrest]

/-- The update rewrites exactly the first note carrying the id. -/
theorem setNoteTextElems_found (id text : String) (now : Int)
    (pre post : List CanvasElement) (ntext : String) (pos : Pos)
    (color creator : String) (ts : Int)
    (hpre : ∀ el ∈ pre, isNoteWithId id el = false) :
    setNoteTextElems id text now
        (pre ++ CanvasElement.note id ntext pos color creator ts :: post) =
      pre ++ CanvasElement.note id text pos color creator now :: post := by
  induction pre with
  | nil => simp [setNoteTextElems]
  | cons el rest ih =>
    have hrest := ih fun x hx => hpre x (List.mem_cons_of_mem _ hx)
    cases el with
    | stroke a b c d e f => simp [setNoteTextElems, hrest]
    | note nid ntext2 pos2 color2 creator2 ts2 =>
      have hh := hpre _ (List.mem_cons_self _ _)
      simp only [isNoteWithId, decide_eq_false_iff_not] at hh
      simp [setNoteTextElems, hh, hrest]

/-- Updating a note's text keeps the presence of a note with the id. -/
theorem noteHasId_setNoteTextElems (id text : String) (now : Int)
    (els : List CanvasElement) :
    noteHasId id (setNoteTextElems id text now els) = noteHasId id els := by
  induction els with
  | nil => rfl
  | cons el rest ih =>
    cases el with
    | stroke a b c d e f =>
      simp [setNoteTextElems, noteHasId, isNoteWithId] at ih ⊢
      exact ih
    | note nid ntext pos color creator ts =>
      by_cases hn : nid = id
      · subst hn
        simp [setNoteTextElems, noteHasId, isNoteWithId]
      · simp [setNoteTextElems, noteHasId, isNoteWithId, hn] at ih ⊢
        exact ih

/-- After setting a note's text, looking the note up returns the new
text. -/
theorem noteTextLookup_setNoteTextElems (id text : String) (now : Int)
    (els : List CanvasElement) (h : noteHasId id els = true) :
    noteTextLookup id (setNoteTextElems id text now els) = some text := by
  induction els with
  | nil => simp [noteHasId] at h
  | cons el rest ih =>
    cases el with
    | stroke a b c d e f =>
      have h' : noteHasId id rest = true := by
        simpa [noteHasId, isNoteWithId] using h
      simp [setNoteTextElems, noteTextLookup, ih h']
    | note nid ntext pos color creator ts =>
      by_cases hn : nid = id
      · subst hn
        simp [setNoteTextElems, noteTextLookup]
      · have h' : noteHasId id rest = true := by
          simpa [noteHasId, isNoteWithId, hn] using h
        simp [setNoteTextElems, noteTextLookup, hn, ih h']

/-- Updating a note's text never changes any element's id or type tag. -/
theorem map_elemKey_setNoteTextElems (id text : String) (now : Int)
    (els : List CanvasElement) :
    (setNoteTextElems id text now els).map elemKey = els.map elemKey := by
  induction els with
  | nil => rfl
  | cons el rest ih =>
    cases el with
    | stroke a b c d e f => simp [setNoteTextElems, elemKey, ih]
    | note nid ntext pos color creator ts =>
      by_cases hn : nid = id
      · subst hn
        simp [setNoteTextElems, elemKey]
      · simp [setNoteTextElems, elemKey, hn, ih]

/-- Looking up the upserted key returns the new value. -/
theorem lookupCursor_upsert_self (k : String) (v : Cursor)
    (m : List (String × Cursor)) :
    lookupCursor k (upsertCursor k v m) = some v := by
  induction m with
  | nil => simp [upsertCursor, lookupCursor]
  | cons p rest ih =>
    by_cases hk : p.1 = k
    · simp [upsertCursor, lookupCursor, hk]
    · simp [upsertCursor, lookupCursor, hk, ih]

/-- Looking up a different key is unaffected by the upsert. -/
theorem lookupCursor_upsert_ne (k u : String) (v : Cursor)
    (m : List (String × Cursor)) (h : u ≠ k) :
    lookupCursor u (upsertCursor k v m) = lookupCursor u m := by
  have hku : ¬(k = u) := fun hh => h hh.symm
  induction m with
  | nil => simp [upsertCursor, lookupCursor, hku]
  | cons p rest ih =>
    obtain ⟨k', v'⟩ := p
    by_cases hk : k' = k
    · subst hk
      simp [upsertCursor, lookupCursor, hku]
    · simp [upsertCursor, lookupCursor, hk, ih]

/-- A key present after the upsert was the upserted key or already
present. -/
theorem mem_keys_upsertCursor (k u : String) (v : Cursor)
    (m : List (String × Cursor))
    (h : u ∈ (upsertCursor k v m).map Prod.fst) :
    u = k ∨ u ∈ m.map Prod.fst := by
  induction m with
  | nil =>
    simp [upsertCursor] at h
    exact Or.inl h
  | cons p rest ih =>
    by_cases hk : p.1 = k
    · simp [upsertCursor, hk] at h
      rcases h with h | h
      · exact Or.inl h
      · exact Or.inr (by simp [h])
    · simp [upsertCursor, hk] at h
      rcases h with h | h
      · exact Or.inr (by simp [h])
      · rcases ih (by simpa using h) with h' | h'
        · exact Or.inl h'
        · exact Or.inr (by simp [h'])

/-- The upsert keeps the keys of the mapping without duplicates: at most
one entry per actor. -/
theorem nodup_keys_upsertCursor (k : String) (v : Cursor)
    (m : List (String × Cursor)) (h : (m.map Prod.fst).Nodup) :
    ((upsertCursor k v m).map Prod.fst).Nodup := by
  induction m with
  | nil => simp [upsertCursor]
  | cons p rest ih =>
    obtain ⟨k', v'⟩ := p
    rw [List.map_cons, List.nodup_cons] at h
    by_cases hk : k' = k
    · subst hk
      rw [show upsertCursor k' v ((k', v') :: rest) = (k', v) :: rest from by
        simp [upsertCursor]]
      rw [List.map_cons, List.nodup_cons]
      exact ⟨h.1, h.2⟩
    · rw [show upsertCursor k v ((k', v') :: rest) =
          (k', v') :: upsertCursor k v rest from by simp [upsertCursor, hk]]
      rw [List.map_cons, List.nodup_cons]
      refine ⟨fun hmem => ?_, ih h.2⟩
      rcases mem_keys_upsertCursor k k' v rest hmem with h' | h'
      · exact hk h'
      · exact h.1 h'

/-! ### The claims. -/

/-- Claim C1: merge on receipt of a remote document is order-independent
and duplication-independent — merging X then Y equals merging Y then X,
merging the same snapshot twice equals merging it once, and two replicas
that merged the same set of operations (in any order, with arbitrary
duplication) hold identical operation histories and documents. -/
theorem merge_commutative_idempotent_convergent
    (D X Y base : Finset MOp) (l₁ l₂ : List (Finset MOp))
    (h₁ : ∀ s ∈ l₁, s ∈ l₂) (h₂ : ∀ s ∈ l₂, s ∈ l₁) :
    mergeOps (mergeOps D X) Y = mergeOps (mergeOps D Y) X
    ∧ replicaDoc (mergeOps (mergeOps D X) Y) =
        replicaDoc (mergeOps (mergeOps D Y) X)
    ∧ mergeOps (mergeOps D X) X = mergeOps D X
    ∧ replicaDoc (mergeOps (mergeOps D X) X) = replicaDoc (mergeOps D X)
    ∧ mergeAll base l₁ = mergeAll base l₂
    ∧ replicaDoc (mergeAll base l₁) = replicaDoc (mergeAll base l₂) := by
  have hcomm : mergeOps (mergeOps D X) Y = mergeOps (mergeOps D Y) X := by
    simp only [mergeOps]
    exact Finset.union_right_comm D X Y
  have hidem : mergeOps (mergeOps D X) X = mergeOps D X := by
    simp only [mergeOps, Finset.union_assoc, Finset.union_self]
  have hconv := mergeAll_eq_of_same base l₁ l₂ h₁ h₂
  exact ⟨hcomm, congrArg replicaDoc hcomm, hidem, congrArg replicaDoc hidem,
    hconv, congrArg replicaDoc hconv⟩

/-- Closed instance of C1: a replica that merged the snapshots X, Y, X in
that order holds the same document as one that merged Y then X. -/
theorem merge_commutative_idempotent_convergent_inst :
    replicaDoc (mergeAll hD [hX, hY, hX]) = replicaDoc (mergeAll hD [hY, hX]) :=
  (merge_commutative_idempotent_convergent hD hX hY hD [hX, hY, hX] [hY, hX]
    (by decide) (by decide)).2.2.2.2.2

/-- Claim C2 counterexample: a structurally invalid (canvas-less) incoming
snapshot does not leave the store's document equal to the previous one —
the handler repairs it, merges it, and then returns mergeResult[0], which
is undefined, so the store's document is wiped rather than kept. -/
theorem mergeIncoming_invalid_changes_document :
    mergeIncoming hD (some (∅ : Finset MOp)) "z" 1 ≠ some hD
    ∧ mergeIncoming hD (some (∅ : Finset MOp)) "z" 1 = none := by
  decide

/-- Claim C2 amended: a payload that fails to deserialize leaves the
store's document unchanged and raises nothing to the caller; but any
payload that deserializes — structurally invalid (repaired with a default
canvas) or well-formed — sets the store's document to undefined: the
handler computes the merge and then returns mergeResult[0], and
Automerge.merge returns the merged document rather than a tuple, so the
indexed read is undefined and the merged document is discarded. -/
theorem mergeIncoming_spec (current x : Finset MOp) (fa : String)
    (fc : Nat) :
    mergeIncoming current none fa fc = some current
    ∧ mergeIncoming current (some x) fa fc = none
    ∧ (hasCanvasOps x = true →
        mergeComputed current x fa fc = mergeOps current x)
    ∧ (hasCanvasOps x = false →
        mergeComputed current x fa fc =
          mergeOps current (fixDoc x fa fc)) := by
  refine ⟨rfl, rfl, fun h => ?_, fun h => ?_⟩
  · simp [mergeComputed, h]
  · simp [mergeComputed, h]

/-- Closed instance of C2 amended: a canvas-less snapshot is repaired and
merged in the handler's intermediate computation, yet the store's document
still ends up undefined. -/
theorem mergeIncoming_spec_inst :
    mergeComputed hD (∅ : Finset MOp) "z" 1 =
      mergeOps hD (fixDoc (∅ : Finset MOp) "z" 1) :=
  (mergeIncoming_spec hD (∅ : Finset MOp) "z" 1).2.2.2 (by decide)

/-- Claim C3 counterexample: on a document whose canvas substructure is
absent, addStroke returns the document unchanged — no empty canvas is
injected and the requested change is discarded. -/
theorem addStroke_no_repair_on_missing_canvas :
    (addStroke (some dNoCanvas) true "e1" "u1" 0 [(0, 0)] "#000000" 3).1 =
      some dNoCanvas
    ∧ (addStroke (some dNoCanvas) true "e1" "u1" 0 [(0, 0)] "#000000" 3).1 ≠
      some ⟨some { emptyCanvas with elements :=
        [CanvasElement.stroke "e1" [(0, 0)] "#000000" 3 "u1" 0] }⟩ := by
  decide

/-- Claim C3 amended: when the store's canvas is absent at invocation,
every mutation operation returns the document unchanged — the entry guard
short-circuits and the requested change is discarded; repair-before-mutate
exists only inside the apply callbacks: addStroke, addNote and updateCursor
inject the default empty canvas (elements empty, cursors empty, title
Untitled Sketch) before applying their change, updateTitle injects an empty
canvas carrying the new title, and updateNote's callback applies nothing
when the canvas is absent. -/
theorem mutation_repair_in_callback_only (d : SketchDoc)
    (h : d.canvas = none) (wsOpen : Bool)
    (newId actor id text title color : String) (now x y width : Int)
    (points : List Point) (pos : Pos) :
    (addStroke (some d) wsOpen newId actor now points color width).1 = some d
    ∧ (addNote (some d) wsOpen newId actor now text pos color).1 = some d
    ∧ (updateNote (some d) wsOpen id text now).1 = some d
    ∧ (updateTitle (some d) wsOpen title).1 = some d
    ∧ (updateCursor (some d) wsOpen actor x y now).1 = some d
    ∧ addStrokeChange newId actor now points color width d =
        ⟨some { emptyCanvas with elements :=
          [CanvasElement.stroke newId points color width actor now] }⟩
    ∧ addNoteChange newId actor now text pos color d =
        ⟨some { emptyCanvas with elements :=
          [CanvasElement.note newId text pos color actor now] }⟩
    ∧ updateCursorChange actor x y now d =
        ⟨some { emptyCanvas with cursors := [(actor, ⟨⟨x, y⟩, now⟩)] }⟩
    ∧ updateTitleChange title d =
        ⟨some { elements := [], cursors := [], title := title }⟩
    ∧ updateNoteChange id text now d = d := by
  refine ⟨?_, ?_, ?_, ?_, ?_, ?_, ?_, ?_, ?_, ?_⟩ <;>
    simp [addStroke, addNote, updateNote, updateTitle, updateCursor,
      runMutation, addStrokeChange, addNoteChange, updateNoteChange,
      updateTitleChange, updateCursorChange, upsertCursor, emptyCanvas, h]

/-- Closed instance of C3 amended: updateTitle on a canvas-less document
leaves it unchanged. -/
theorem mutation_repair_in_callback_only_inst :
    (updateTitle (some dNoCanvas) true "T").1 = some dNoCanvas :=
  (mutation_repair_in_callback_only dNoCanvas rfl true "e1" "u1" "n1" "x"
    "T" "#000000" 0 1 2 3 [(0, 0)] ⟨1, 2⟩).2.2.2.1

/-- Claim C4: updateNote on a document with a canvas sets the text and
bumps the timestamp of the first note carrying the given id when one
exists, is a silent no-op when no element is a note with that id, and
applied twice leaves the note's text equal to the given text. -/
theorem updateNote_spec (d : SketchDoc) (c : Canvas) (h : d.canvas = some c)
    (wsOpen : Bool) (id text : String) (n₁ n₂ : Int) :
    ((∀ el ∈ c.elements, isNoteWithId id el = false) →
      (updateNote (some d) wsOpen id text n₁).1 = some d)
    ∧ (∀ pre ntext pos color creator ts post,
        c.elements =
          pre ++ CanvasElement.note id ntext pos color creator ts :: post →
        (∀ el ∈ pre, isNoteWithId id el = false) →
        (updateNote (some d) wsOpen id text n₁).1 =
          some ⟨some { c with elements :=
            pre ++ CanvasElement.note id text pos color creator n₁ :: post }⟩)
    ∧ (updateNote ((updateNote (some d) wsOpen id text n₁).1) wsOpen id text
        n₂).1 = some ⟨some { c with
          elements := setNoteTextElems id text n₂
            (setNoteTextElems id text n₁ c.elements) }⟩
    ∧ (noteHasId id c.elements = true →
        noteTextLookup id
          (setNoteTextElems id text n₂ (setNoteTextElems id text n₁ c.elements)) =
          some text) := by
  obtain ⟨dc⟩ := d
  have h' : dc = some c := h
  subst h'
  refine ⟨fun hnone => ?_, fun pre ntext pos color creator ts post heq hpre => ?_,
    ?_, fun hhas => ?_⟩
  · simp [updateNote, runMutation, updateNoteChange,
      setNoteTextElems_of_none id text n₁ c.elements hnone]
  · simp [updateNote, runMutation, updateNoteChange, heq,
      setNoteTextElems_found id text n₁ pre post ntext pos color creator ts hpre]
  · simp [updateNote, runMutation, updateNoteChange]
  · have h1 : noteHasId id (setNoteTextElems id text n₁ c.elements) = true := by
      rw [noteHasId_setNoteTextElems]; exact hhas
    exact noteTextLookup_setNoteTextElems id text n₂ _ h1

/-- Closed instance of C4: updating note n1 twice with text x leaves the
text equal to x. -/
theorem updateNote_spec_inst :
    noteTextLookup "n1" (setNoteTextElems "n1" "x" 200
      (setNoteTextElems "n1" "x" 100 cvW.elements)) = some "x" :=
  (updateNote_spec dW cvW rfl true "n1" "x" 100 200).2.2.2 (by decide)

/-- Claim C5: the live-cursor set is a pure read-time function of the
cursors mapping, the caller's actor id and the time: the caller's own entry
is never live, an entry last active 11 seconds ago is excluded, an entry
last active 9 seconds ago is included, and the live set is a sublist of the
stored mapping — no entry is removed from storage. -/
theorem activeCursors_spec (cursors : List (String × Cursor))
    (me u : String) (cur : Cursor) (now : Int) (hu : u ≠ me) :
    (∀ c : Cursor, (me, c) ∉ activeCursors cursors me now)
    ∧ (cur.lastActive = now - 11000 → (u, cur) ∉ activeCursors cursors me now)
    ∧ (cur.lastActive = now - 9000 → (u, cur) ∈ cursors →
        (u, cur) ∈ activeCursors cursors me now)
    ∧ (activeCursors cursors me now).Sublist cursors := by
  refine ⟨?_, ?_, ?_, ?_⟩
  · intro c hc
    simp [activeCursors, List.mem_filter] at hc
  · intro hla hmem
    simp only [activeCursors, List.mem_filter, decide_eq_true_eq,
      livenessWindowMs, hla] at hmem
    omega
  · intro hla hmem
    simp only [activeCursors, List.mem_filter, decide_eq_true_eq,
      bne_iff_ne, ne_eq, livenessWindowMs, hla]
    refine ⟨⟨hmem, hu⟩, by omega⟩
  · exact (List.filter_sublist _).trans (List.filter_sublist _)

/-- Closed instance of C5: a foreign cursor 9 seconds old is live. -/
theorem activeCursors_spec_inst :
    ("u2", (⟨⟨5, 6⟩, 991000⟩ : Cursor)) ∈
      activeCursors [("u2", ⟨⟨5, 6⟩, 991000⟩)] "u1" 1000000 :=
  (activeCursors_spec [("u2", ⟨⟨5, 6⟩, 991000⟩)] "u1" "u2"
    ⟨⟨5, 6⟩, 991000⟩ 1000000 (by decide)).2.2.1 (by decide) (by decide)

/-- Claim C6: addStroke on a document with a canvas synchronously produces
a document whose elements equal the previous elements with exactly one
appended stroke carrying the given points, color and width, the generated
id, the acting user as creator and the current timestamp, with every other
part of the document unchanged, whether or not the connection is open. -/
theorem addStroke_spec (d : SketchDoc) (c : Canvas) (h : d.canvas = some c)
    (points : List Point) (hp : points ≠ []) (color : String) (width : Int)
    (hw : 0 < width) (wsOpen : Bool) (newId actor : String) (now : Int) :
    (addStroke (some d) wsOpen newId actor now points color width).1 =
      some ⟨some { c with elements := c.elements ++
        [CanvasElement.stroke newId points color width actor now] }⟩ := by
  simp [addStroke, runMutation, addStrokeChange, h]

/-- Closed instance of C6: a stroke appended with the connection closed. -/
theorem addStroke_spec_inst :
    (addStroke (some dW) false "s9" "u1" 77 [(0, 0), (1, 1)] "#ff0000" 4).1 =
      some ⟨some { cvW with elements := cvW.elements ++
        [CanvasElement.stroke "s9" [(0, 0), (1, 1)] "#ff0000" 4 "u1" 77] }⟩ :=
  addStroke_spec dW cvW rfl [(0, 0), (1, 1)] (by decide) "#ff0000" 4
    (by decide) false "s9" "u1" 77

/-- Claim C7: updateCursor on a document with a canvas stores the caller's
entry at position (x, y) with lastActive = now, overwriting any previous
entry for that actor while keeping at most one entry per actor, and leaves
the elements, the title and every other actor's entry unchanged. -/
theorem updateCursor_spec (d : SketchDoc) (c : Canvas)
    (h : d.canvas = some c) (wsOpen : Bool) (actor : String) (x y now : Int) :
    (updateCursor (some d) wsOpen actor x y now).1 =
      some ⟨some { c with
        cursors := upsertCursor actor ⟨⟨x, y⟩, now⟩ c.cursors }⟩
    ∧ lookupCursor actor (upsertCursor actor ⟨⟨x, y⟩, now⟩ c.cursors) =
        some ⟨⟨x, y⟩, now⟩
    ∧ (∀ u, u ≠ actor →
        lookupCursor u (upsertCursor actor ⟨⟨x, y⟩, now⟩ c.cursors) =
          lookupCursor u c.cursors)
    ∧ ((c.cursors.map Prod.fst).Nodup →
        ((upsertCursor actor ⟨⟨x, y⟩, now⟩ c.cursors).map Prod.fst).Nodup) := by
  refine ⟨?_, lookupCursor_upsert_self _ _ _,
    fun u hu => lookupCursor_upsert_ne _ _ _ _ hu,
    fun hn => nodup_keys_upsertCursor _ _ _ hn⟩
  simp [updateCursor, runMutation, updateCursorChange, h]

/-- Closed instance of C7: the caller's entry is upserted with the new
position and time. -/
theorem updateCursor_spec_inst :
    (updateCursor (some dW) true "u1" 3 4 100).1 =
      some ⟨some { cvW with
        cursors := upsertCursor "u1" ⟨⟨3, 4⟩, 100⟩ cvW.cursors }⟩ :=
  (updateCursor_spec dW cvW rfl true "u1" 3 4 100).1

/-- Claim C8 counterexample: element ids come from an uncoordinated random
generator with no uniqueness check, so when the generator repeats a value
two addStroke calls leave the document with two elements sharing an id —
the ids are not pairwise distinct. -/
theorem elem_id_collision :
    ¬ (((docKeys (addStroke
        (addStroke (some emptyDoc) false "dup" "u1" 0 [(0, 0)] "#000000" 3).1
        false "dup" "u2" 1 [(1, 1)] "#ff0000" 2).1).map Prod.fst).Nodup) := by
  decide

/-- Claim C8 amended: element ids are generated locally at random without
coordination and without a uniqueness check, so pairwise distinctness is
not guaranteed; an element's id and type tag never change after creation —
every store operation either preserves the list of (id, tag) pairs exactly
or appends the one pair of the newly created element. -/
theorem elem_id_tag_immutable (s : Option SketchDoc) (wsOpen : Bool)
    (newId actor id text title color : String) (now x y width : Int)
    (points : List Point) (pos : Pos) :
    docKeys (addStroke s wsOpen newId actor now points color width).1 =
      docKeys s ++ (if guardOk s then [(newId, "stroke")] else [])
    ∧ docKeys (addNote s wsOpen newId actor now text pos color).1 =
      docKeys s ++ (if guardOk s then [(newId, "note")] else [])
    ∧ docKeys (updateNote s wsOpen id text now).1 = docKeys s
    ∧ docKeys (updateTitle s wsOpen title).1 = docKeys s
    ∧ docKeys (updateCursor s wsOpen actor x y now).1 = docKeys s := by
  rcases s with _ | ⟨_ | c⟩
  · exact ⟨rfl, rfl, rfl, rfl, rfl⟩
  · refine ⟨?_, ?_, ?_, ?_, ?_⟩ <;>
      simp [docKeys, guardOk, addStroke, addNote, updateNote, updateTitle,
        updateCursor, runMutation]
  · refine ⟨?_, ?_, ?_, ?_, ?_⟩ <;>
      simp [docKeys, guardOk, addStroke, addNote, updateNote, updateTitle,
        updateCursor, runMutation, addStrokeChange, addNoteChange,
        updateNoteChange, updateTitleChange, updateCursorChange, elemKey,
        map_elemKey_setNoteTextElems]

/-- Closed instance of C8 amended: updateNote changes no id or tag. -/
theorem elem_id_tag_immutable_inst :
    docKeys (updateNote (some dW) true "n1" "x" 100).1 = docKeys (some dW) :=
  (elem_id_tag_immutable (some dW) true "e1" "u1" "n1" "x" "T" "#000000"
    100 1 2 3 [(0, 0)] ⟨1, 2⟩).2.2.1

/-- Claim C9: a close event with the clean protocol code never schedules a
reconnection, and a close with any other code schedules exactly one
reconnection attempt after the fixed delay. -/
theorem wsOnClose_spec (e : CloseEvent) :
    (wsOnClose e).1 = false
    ∧ (e.code = cleanCloseCode → (wsOnClose e).2 = [])
    ∧ (e.code ≠ cleanCloseCode →
        (wsOnClose e).2 = [reconnectDelayMs] ∧ (wsOnClose e).2.length = 1) := by
  refine ⟨rfl, fun h => ?_, fun h => ?_⟩
  · simp [wsOnClose, h]
  · simp [wsOnClose, h]

/-- Closed instance of C9: an abnormal close schedules one 5 second
reconnect. -/
theorem wsOnClose_spec_inst :
    (wsOnClose ⟨1006, "abnormal"⟩).2 = [reconnectDelayMs] ∧
      (wsOnClose ⟨1006, "abnormal"⟩).2.length = 1 :=
  (wsOnClose_spec ⟨1006, "abnormal"⟩).2.2 (by decide)

/-- Claim C10: when the store's document is absent or lacks its canvas at
the moment a mutation operation is invoked, the operation returns the state
untouched, performs no repair, sends nothing on the network, and raises no
error. -/
theorem mutation_guard_noop (s : Option SketchDoc) (h : guardOk s = false)
    (wsOpen : Bool) (newId actor id text title color : String)
    (now x y width : Int) (points : List Point) (pos : Pos) :
    addStroke s wsOpen newId actor now points color width = (s, [])
    ∧ addNote s wsOpen newId actor now text pos color = (s, [])
    ∧ updateNote s wsOpen id text now = (s, [])
    ∧ updateTitle s wsOpen title = (s, [])
    ∧ updateCursor s wsOpen actor x y now = (s, []) := by
  cases s with
  | none => exact ⟨rfl, rfl, rfl, rfl, rfl⟩
  | some d =>
    simp only [guardOk] at h
    refine ⟨?_, ?_, ?_, ?_, ?_⟩ <;>
      simp [addStroke, addNote, updateNote, updateTitle, updateCursor,
        runMutation, h]

/-- Closed instance of C10: addStroke on a canvas-less document is a no-op
that sends nothing. -/
theorem mutation_guard_noop_inst :
    addStroke (some dNoCanvas) true "e2" "u1" 0 [(0, 0)] "#000000" 3 =
      (some dNoCanvas, []) :=
  (mutation_guard_noop (some dNoCanvas) (by decide) true "e2" "u1" "n1" "x"
    "T" "#000000" 0 1 2 3 [(0, 0)] ⟨1, 2⟩).1

end Tinyfoot
